import Mathlib

/-!
Shallow embedding of the golog package (src/main.go) in Lean 4.

The package is a thin structured-logging facade over zapcore: a list of
providers (stdout, custom writer, Google Cloud Logging, rotating file) is
turned into a list of zapcore cores joined by a tee; Logger methods emit a
record through the tee, and Close syncs the zap logger then closes every
provider.

Modelling conventions:
- Go errors are the inductive GoErr; fmt.Errorf with a trailing %w verb is
  GoErr.wrap, errors.New is GoErr.new, os.PathError is GoErr.pathErr and a
  bare syscall errno is GoErr.errno.  GoErr.text is the Error() string.
- External effects (the GCP client constructor and Close, the lumberjack
  Close, stream Sync and per-destination Write failures) are deterministic
  oracles collected in Env, keyed by the provider position in the
  configured provider list.  Quantifying over Env quantifies over every
  behaviour of the external world.
- Mutable provider fields (gcpProvider.client, fileProvider.lumberjackLogger)
  become Bool flags in ProvState, threaded by explicit state passing.
  ProvState.closeCalls is instrumentation counting invocations of the
  provider close() method, exactly what the countingProvider in the
  repository test suite records.
- zapcore is embedded at the level the package uses it: a core is either an
  encoder/sink/level triple (zapcore.NewCore) or the custom gcpZapCore; the
  tee checks every core in order and writes to every enabled core in order,
  continuing past write errors (zapcore multiCore.Check / CheckedEntry.Write
  semantics).  Record fields and the encoded byte layout are out of scope of
  the claims treated here and are not modelled; an Entry keeps its level and
  message.
-/

namespace GoLog

/-- Syscall error numbers that appear in the repository tests. -/
inductive Errno where
  | ENOTTY
  | EINVAL
  | EBADF
  | ioErr
deriving DecidableEq, Repr

/-- Text of the errno, as in the strerror table used by Go. -/
def Errno.text : Errno → String
  | .ENOTTY => "inappropriate ioctl for device"
  | .EINVAL => "invalid argument"
  | .EBADF => "bad file descriptor"
  | .ioErr => "input/output error"

/-- Go error values as the package builds and observes them.  wrap models
fmt.Errorf with a format that is a plain message followed by %w, so the
wrapped text is the message directly followed by the cause text. -/
inductive GoErr where
  | new (msg : String)
  | wrap (pre : String) (cause : GoErr)
  | pathErr (op path : String) (errno : Errno)
  | errno (e : Errno)
deriving DecidableEq, Repr

/-- The Error() string of a GoErr. -/
def GoErr.text : GoErr → String
  | .new m => m
  | .wrap p c => p ++ c.text
  | .pathErr op path e => op ++ " " ++ path ++ ": " ++ e.text
  | .errno e => e.text

/-- Substring containment on strings, used to formalise an error message
naming or mentioning a given token. -/
def strContains (hay needle : String) : Prop :=
  needle.toList <:+: hay.toList

instance (hay needle : String) : Decidable (strContains hay needle) :=
  List.decidableInfix needle.toList hay.toList

/-- Level is declared in Go as an integer type: type Level int. -/
abbrev Level := Int

def DebugLevel : Level := 0
def InfoLevel : Level := 1
def WarnLevel : Level := 2
def ErrorLevel : Level := 3
def FatalLevel : Level := 4

/-- The zapcore.Level constants used by the package.  Their numeric values
(Debug = -1 through Fatal = 5) drive the ordering used by Enabled. -/
inductive ZapLevel where
  | debug
  | info
  | warn
  | error
  | dpanic
  | panicLvl
  | fatal
deriving DecidableEq, Repr

/-- Numeric value of a zapcore.Level. -/
def ZapLevel.toInt : ZapLevel → Int
  | .debug => -1
  | .info => 0
  | .warn => 1
  | .error => 2
  | .dpanic => 3
  | .panicLvl => 4
  | .fatal => 5

/-- toZapLevel from src/main.go: a switch on the five named Level constants
with a default arm falling back to zapcore.InfoLevel. -/
def toZapLevel (lvl : Level) : ZapLevel :=
  if lvl = DebugLevel then ZapLevel.debug
  else if lvl = InfoLevel then ZapLevel.info
  else if lvl = WarnLevel then ZapLevel.warn
  else if lvl = ErrorLevel then ZapLevel.error
  else if lvl = FatalLevel then ZapLevel.fatal
  else ZapLevel.info

/-- EncoderType is declared in Go as a string type. -/
abbrev EncoderType := String

def JSONEncoder : EncoderType := "json"
def ConsoleEncoder : EncoderType := "console"

/-- The two zapcore encoders the package can build. -/
inductive Encoder where
  | console
  | json
deriving DecidableEq, Repr

/-- Rendering of the %q verb for the strings appearing in the claims; the
escaping of exotic characters inside the quoted value is not modelled, and
no claim depends on it. -/
def goQuote (s : String) : String := "\"" ++ s ++ "\""

/-- buildEncoder from src/main.go: recognises the console and json encoder
kinds; on any other kind it returns a JSON encoder together with an
unsupported-encoder-type error. -/
def buildEncoder (t : EncoderType) : Encoder × Option GoErr :=
  if t = ConsoleEncoder then (Encoder.console, none)
  else if t = JSONEncoder then (Encoder.json, none)
  else (Encoder.json,
    some (GoErr.new ("unsupported encoder type " ++ goQuote t ++ ", falling back to JSON")))

/-- Severity values of the cloud logging service used by levelToSeverity. -/
inductive Severity where
  | default
  | debug
  | info
  | warning
  | error
  | critical
  | alert
  | emergency
deriving DecidableEq, Repr

/-- levelToSeverity from src/main.go.  The Go switch carries a default arm
returning logging.Default; it is unreachable for the seven zapcore levels,
which are the only values the embedded ZapLevel type has. -/
def levelToSeverity (lvl : ZapLevel) : Severity :=
  match lvl with
  | .debug => Severity.debug
  | .info => Severity.info
  | .warn => Severity.warning
  | .error => Severity.error
  | .dpanic => Severity.critical
  | .panicLvl => Severity.alert
  | .fatal => Severity.emergency

/-- The byte sink behind a stream core: the process stdout, a caller
supplied writer (identified by a number), or the lumberjack rotating file. -/
inductive Sink where
  | stdout
  | writerSink (id : Nat)
  | fileSink (filename : String)
deriving DecidableEq, Repr

/-- A zapcore.NewCore ioCore as the package builds it: encoder, write
syncer and level enabler. -/
structure StreamCore where
  enc : Encoder
  sink : Sink
  level : ZapLevel
deriving DecidableEq, Repr

/-- A core of the tee: an ioCore, or the custom gcpZapCore (identified by
the position of the gcp provider, carrying its level). -/
inductive Core where
  | stream (c : StreamCore)
  | gcp (idx : Nat) (level : ZapLevel)
deriving DecidableEq, Repr

/-- The level enabler of a core. -/
def Core.level : Core → ZapLevel
  | .stream c => c.level
  | .gcp _ l => l

/-- Enabled for both core variants is the zapcore comparison lvl >= level
(ioCore via its LevelEnabler, gcpZapCore.Enabled literally). -/
def Core.enabled (c : Core) (lvl : ZapLevel) : Bool :=
  c.level.toInt ≤ lvl.toInt

/-- Static provider configuration, as the With* options record it. -/
inductive ProviderCfg where
  | stdOut (encoderType : EncoderType)
  | writer (sinkId : Nat) (encoderType : EncoderType)
  | gcp (projectID logName : String)
  | file (filename : String) (maxSize maxBackups maxAge : Int) (compress : Bool)
deriving DecidableEq, Repr

/-- Runtime state of one provider.  gcpClientSet and ljSet model the
pointer fields gcpProvider.client and fileProvider.lumberjackLogger being
non-nil; closeCalls counts invocations of the provider close() method (the
physical releases observed by the countingProvider of the test suite). -/
structure ProvState where
  cfg : ProviderCfg
  gcpClientSet : Bool := false
  ljSet : Bool := false
  closeCalls : Nat := 0
deriving DecidableEq, Repr

/-- Fresh state of a configured provider. -/
def ProvState.init (c : ProviderCfg) : ProvState := { cfg := c }

/-- Deterministic oracles for the external world, keyed by provider
position where the effect belongs to one provider.  A none value means the
external call succeeds; a some value is the error it returns. -/
structure Env where
  gcpNewClientErr : Nat → Option GoErr
  gcpCloseErr : Nat → Option GoErr
  fileCloseErr : Nat → Option GoErr
  syncErr : Sink → Option GoErr
  gcpFlushErr : Nat → Option GoErr

/-- newCore of the provider at position i (src/main.go).  stdOut and writer
build an encoder and wrap the sink; gcp creates the cloud client (recording
it on the provider) or fails with a wrapped client-creation error; file
validates the rotation parameters, then builds the JSON encoder and the
lumberjack logger (recording it on the provider). -/
def newCore (env : Env) (i : Nat) (lvl : ZapLevel) (s : ProvState) :
    ProvState × Except GoErr Core :=
  match s.cfg with
  | .stdOut et =>
    match buildEncoder et with
    | (_, some e) => (s, Except.error e)
    | (enc, none) => (s, Except.ok (Core.stream ⟨enc, Sink.stdout, lvl⟩))
  | .writer id et =>
    match buildEncoder et with
    | (_, some e) => (s, Except.error e)
    | (enc, none) => (s, Except.ok (Core.stream ⟨enc, Sink.writerSink id, lvl⟩))
  | .gcp _ _ =>
    match env.gcpNewClientErr i with
    | some e => (s, Except.error (GoErr.wrap "gcpProvider: failed to create client: " e))
    | none => ({ s with gcpClientSet := true }, Except.ok (Core.gcp i lvl))
  | .file filename maxSize maxBackups maxAge _ =>
    if maxSize < 0 ∨ maxBackups < 0 ∨ maxAge < 0 then
      (s, Except.error (GoErr.new "fileProvider: rotation parameters must be non‑negative"))
    else
      match buildEncoder JSONEncoder with
      | (_, some e) => (s, Except.error e)
      | (enc, none) =>
        ({ s with ljSet := true }, Except.ok (Core.stream ⟨enc, Sink.fileSink filename, lvl⟩))

/-- close() of the provider at position i.  stdOut and writer are no-ops;
gcp closes the client when one was created, wrapping a failure; file closes
the lumberjack logger when one was created.  closeCalls is incremented on
every invocation. -/
def provClose (env : Env) (i : Nat) (s : ProvState) : ProvState × Option GoErr :=
  let s' := { s with closeCalls := s.closeCalls + 1 }
  match s.cfg with
  | .stdOut _ => (s', none)
  | .writer _ _ => (s', none)
  | .gcp _ _ =>
    if s.gcpClientSet then
      match env.gcpCloseErr i with
      | some e => (s', some (GoErr.wrap "gcpProvider: error closing client: " e))
      | none => (s', none)
    else (s', none)
  | .file _ _ _ _ _ =>
    if s.ljSet then (s', env.fileCloseErr i) else (s', none)

/-- closeProviders from src/main.go, on the states of the providers from
position i on: every provider close() is invoked; the first non-nil error
is wrapped and returned, later errors are dropped. -/
def closeProvidersFrom (env : Env) (i : Nat) :
    List ProvState → List ProvState × Option GoErr
  | [] => ([], none)
  | s :: rest =>
    ((provClose env i s).1 :: (closeProvidersFrom env (i + 1) rest).1,
      if ((provClose env i s).2.map (GoErr.wrap "provider close error: ")).isSome then
        (provClose env i s).2.map (GoErr.wrap "provider close error: ")
      else (closeProvidersFrom env (i + 1) rest).2)

/-- closeProviders over the whole provider list. -/
def closeProviders (env : Env) (ps : List ProvState) : List ProvState × Option GoErr :=
  closeProvidersFrom env 0 ps

/-- loggerConfig: the providers registered so far and the level. -/
structure LoggerConfig where
  providers : List ProviderCfg
  level : Level
deriving DecidableEq, Repr

/-- The functional options of the package. -/
inductive LoggerOption where
  | withStdOutProvider (encoderType : EncoderType)
  | withWriterProvider (sinkId : Nat) (encoderType : EncoderType)
  | withGCPProvider (projectID logName : String)
  | withFileProvider (filename : String) (maxSize maxBackups maxAge : Int) (compress : Bool)
  | withLevel (level : Level)
deriving DecidableEq, Repr

/-- Application of one option to the builder state: the With*Provider
options append one provider, WithLevel overwrites the level. -/
def applyOption (cfg : LoggerConfig) (o : LoggerOption) : LoggerConfig :=
  match o with
  | .withStdOutProvider et =>
    { cfg with providers := cfg.providers ++ [ProviderCfg.stdOut et] }
  | .withWriterProvider id et =>
    { cfg with providers := cfg.providers ++ [ProviderCfg.writer id et] }
  | .withGCPProvider p l =>
    { cfg with providers := cfg.providers ++ [ProviderCfg.gcp p l] }
  | .withFileProvider f ms mb ma c =>
    { cfg with providers := cfg.providers ++ [ProviderCfg.file f ms mb ma c] }
  | .withLevel l => { cfg with level := l }

/-- NewLogger applies the options in order to the default configuration
(no providers, InfoLevel). -/
def buildConfig (opts : List LoggerOption) : LoggerConfig :=
  opts.foldl applyOption { providers := [], level := InfoLevel }

/-- The Logger as far as the claims observe it: the cores of the tee.  The
closers field of the Go Logger holds the provider pointers; their states
are threaded separately alongside. -/
structure Logger where
  cores : List Core
deriving DecidableEq, Repr

/-- The provider loop of NewLogger: providers are initialised in order; on
the first newCore failure, closeProviders is called on the whole provider
list (cfg.providers) and the error is returned wrapped; on success the
collected cores are returned (and closers ends up holding every provider). -/
def newLoggerLoop (env : Env) (lvl : ZapLevel) (i : Nat)
    (done : List ProvState) (cores : List Core) :
    List ProvState → List ProvState × Except GoErr (List Core)
  | [] => (done.reverse, Except.ok cores.reverse)
  | s :: pending =>
    match (newCore env i lvl s).2 with
    | Except.ok c =>
      newLoggerLoop env lvl (i + 1) ((newCore env i lvl s).1 :: done) (c :: cores) pending
    | Except.error e =>
      ((closeProviders env (done.reverse ++ (newCore env i lvl s).1 :: pending)).1,
        Except.error (GoErr.wrap "failed to initialise provider: " e))

/-- NewLogger on an already-built configuration. -/
def NewLoggerFromCfg (env : Env) (cfg : LoggerConfig) :
    List ProvState × Except GoErr Logger :=
  if cfg.providers.isEmpty then
    (cfg.providers.map ProvState.init, Except.error (GoErr.new "no providers specified"))
  else
    match newLoggerLoop env (toZapLevel cfg.level) 0 [] [] (cfg.providers.map ProvState.init) with
    | (ps, Except.ok cores) => (ps, Except.ok { cores := cores })
    | (ps, Except.error e) => (ps, Except.error e)

/-- NewLogger from src/main.go: build the configuration from the options,
reject the empty provider list, then run the provider loop. -/
def NewLogger (env : Env) (opts : List LoggerOption) :
    List ProvState × Except GoErr Logger :=
  NewLoggerFromCfg env (buildConfig opts)

/-- Sync of the zap tee: every core is synced (ioCore syncs its sink,
gcpZapCore flushes the cloud logger).  zap combines the per-core errors
with multierr; the combination is abstracted to the first failing core,
which is exact whenever at most one core fails. -/
def coreSyncErr (env : Env) : Core → Option GoErr
  | Core.stream sc => env.syncErr sc.sink
  | Core.gcp i _ => env.gcpFlushErr i

/-- Sync over the cores of the tee, first failure kept. -/
def zapSyncCores (env : Env) : List Core → Option GoErr
  | [] => none
  | c :: rest =>
    match coreSyncErr env c with
    | some e => some e
    | none => zapSyncCores env rest

/-- Close from src/main.go: sync the zap logger, wrapping a failure as the
zap sync error; then close every provider; the sync error takes precedence,
otherwise the closeProviders error is returned. -/
def Logger.Close (env : Env) (lg : Logger) (ps : List ProvState) :
    List ProvState × Option GoErr :=
  ((closeProviders env ps).1,
    if ((zapSyncCores env lg.cores).map (GoErr.wrap "zap sync error: ")).isSome then
      (zapSyncCores env lg.cores).map (GoErr.wrap "zap sync error: ")
    else (closeProviders env ps).2)

/-- A record as far as the treated claims observe it. -/
structure Entry where
  level : ZapLevel
  msg : String
deriving DecidableEq, Repr

/-- multiCore.Check of the tee starting at position j: each core whose
Enabled accepts the level is added to the checked entry, in order, tagged
with its position. -/
def checkFrom (j : Nat) (lvl : ZapLevel) : List Core → List (Nat × Core)
  | [] => []
  | c :: rest =>
    if c.enabled lvl then (j, c) :: checkFrom (j + 1) lvl rest
    else checkFrom (j + 1) lvl rest

/-- multiCore.Check over the whole tee. -/
def checkCores (cores : List Core) (lvl : ZapLevel) : List (Nat × Core) :=
  checkFrom 0 lvl cores

/-- Write outcome of one core: the ioCore write fails exactly when the
sink write fails, gcpZapCore.Write always returns nil. -/
def coreWriteErr (writeErr : Nat → Option GoErr) (i : Nat) : Core → Option GoErr
  | Core.stream _ => writeErr i
  | Core.gcp _ _ => none

/-- CheckedEntry.Write: every added core is written in order; the loop
never stops early, write errors are collected and the first one kept.
The result lists the (position, entry) deliveries. -/
def ceWrite (writeErr : Nat → Option GoErr) (ent : Entry) :
    List (Nat × Core) → List (Nat × Entry) × Option GoErr
  | [] => ([], none)
  | (i, c) :: rest =>
    ((i, ent) :: (ceWrite writeErr ent rest).1,
      if (coreWriteErr writeErr i c).isSome then coreWriteErr writeErr i c
      else (ceWrite writeErr ent rest).2)

/-- One record emitted through the tee of a logger: check every core, then
write to every enabled one. -/
def emitRecord (lg : Logger) (writeErr : Nat → Option GoErr) (ent : Entry) :
    List (Nat × Entry) × Option GoErr :=
  ceWrite writeErr ent (checkCores lg.cores ent.level)

/-- Number of copies of the record delivered to the destination at
position i by one emission. -/
def deliveredCount (lg : Logger) (writeErr : Nat → Option GoErr) (ent : Entry)
    (i : Nat) : Nat :=
  ((emitRecord lg writeErr ent).1.map Prod.fst).count i

/-- The leveled Logger methods log the message at the matching zapcore
level. -/
def Logger.Debug (lg : Logger) (writeErr : Nat → Option GoErr) (msg : String) :
    List (Nat × Entry) × Option GoErr :=
  emitRecord lg writeErr ⟨ZapLevel.debug, msg⟩

def Logger.Info (lg : Logger) (writeErr : Nat → Option GoErr) (msg : String) :
    List (Nat × Entry) × Option GoErr :=
  emitRecord lg writeErr ⟨ZapLevel.info, msg⟩

def Logger.Warn (lg : Logger) (writeErr : Nat → Option GoErr) (msg : String) :
    List (Nat × Entry) × Option GoErr :=
  emitRecord lg writeErr ⟨ZapLevel.warn, msg⟩

def Logger.Error (lg : Logger) (writeErr : Nat → Option GoErr) (msg : String) :
    List (Nat × Entry) × Option GoErr :=
  emitRecord lg writeErr ⟨ZapLevel.error, msg⟩

def Logger.Fatal (lg : Logger) (writeErr : Nat → Option GoErr) (msg : String) :
    List (Nat × Entry) × Option GoErr :=
  emitRecord lg writeErr ⟨ZapLevel.fatal, msg⟩

/-- Dispatch of the five leveled methods by the golog Level constant; only
meaningful for the five named constants. -/
def emitAtGoLevel (lg : Logger) (writeErr : Nat → Option GoErr) (l : Level)
    (msg : String) : List (Nat × Entry) × Option GoErr :=
  if l = DebugLevel then lg.Debug writeErr msg
  else if l = InfoLevel then lg.Info writeErr msg
  else if l = WarnLevel then lg.Warn writeErr msg
  else if l = ErrorLevel then lg.Error writeErr msg
  else lg.Fatal writeErr msg

/-- The entry gcpZapCore.Write hands to the cloud logger, restricted to the
parts the treated claims observe: the severity computed by levelToSeverity
from the entry level, and the message. -/
structure GcpEntry where
  severity : Severity
  message : String
deriving DecidableEq, Repr

/-- gcpZapCore.Write from src/main.go, restricted as above (the payload map
and the caller-site keys are orthogonal to the claims). -/
def gcpWrite (ent : Entry) : GcpEntry :=
  { severity := levelToSeverity ent.level, message := ent.msg }

/-- Modelled from the spec: the helper ignoreSyncError is repository code
missing from src (src/main_test.go exercises it directly, src/main.go does
not define it).  Per the spec, flushing a non-flushable interactive stream
yields a path error with ENOTTY or EINVAL and is filtered out; any other
error is returned unchanged. -/
def ignoreSyncError (e : GoErr) : Option GoErr :=
  match e with
  | .pathErr _ _ Errno.ENOTTY => none
  | .pathErr _ _ Errno.EINVAL => none
  | e => some e

/-- The environment in which every external call succeeds. -/
def env0 : Env :=
  { gcpNewClientErr := fun _ => none
    gcpCloseErr := fun _ => none
    fileCloseErr := fun _ => none
    syncErr := fun _ => none
    gcpFlushErr := fun _ => none }

/-! Helper lemmas. -/

lemma strContains_of_left (pre rest needle : String)
    (h : needle.toList <+: pre.toList) : strContains (pre ++ rest) needle := by
  unfold strContains
  have hl : (pre ++ rest).toList = pre.toList ++ rest.toList := by
    simp [String.toList]
  rw [hl]
  exact (h.trans (List.prefix_append pre.toList rest.toList)).isInfix

lemma newCore_closeCalls (env : Env) (i : Nat) (lvl : ZapLevel) (s : ProvState) :
    ((newCore env i lvl s).1).closeCalls = s.closeCalls := by
  rcases s with ⟨cfg, g, lj, cc⟩
  cases cfg with
  | stdOut et =>
    show ((match buildEncoder et with
      | (_, some e) => (_, Except.error e)
      | (enc, none) => _ : ProvState × Except GoErr Core)).1.closeCalls = cc
    rcases buildEncoder et with ⟨enc, _ | e⟩ <;> rfl
  | writer id et =>
    show ((match buildEncoder et with
      | (_, some e) => (_, Except.error e)
      | (enc, none) => _ : ProvState × Except GoErr Core)).1.closeCalls = cc
    rcases buildEncoder et with ⟨enc, _ | e⟩ <;> rfl
  | gcp p l =>
    show ((match env.gcpNewClientErr i with
      | some e => (_, Except.error _)
      | none => _ : ProvState × Except GoErr Core)).1.closeCalls = cc
    cases env.gcpNewClientErr i <;> rfl
  | file fn ms mb ma c =>
    by_cases hneg : ms < 0 ∨ mb < 0 ∨ ma < 0
    · show ((if ms < 0 ∨ mb < 0 ∨ ma < 0 then _ else _ :
        ProvState × Except GoErr Core)).1.closeCalls = cc
      rw [if_pos hneg]
    · show ((if ms < 0 ∨ mb < 0 ∨ ma < 0 then _ else _ :
        ProvState × Except GoErr Core)).1.closeCalls = cc
      rw [if_neg hneg]

lemma provClose_closeCalls (env : Env) (i : Nat) (s : ProvState) :
    ((provClose env i s).1).closeCalls = s.closeCalls + 1 := by
  rcases s with ⟨cfg, g, lj, cc⟩
  cases cfg with
  | stdOut et => rfl
  | writer id et => rfl
  | gcp p l =>
    show ((if g then _ else _ : ProvState × Option GoErr)).1.closeCalls = cc + 1
    cases g
    · rfl
    · show ((match env.gcpCloseErr i with
        | some e => _
        | none => _ : ProvState × Option GoErr)).1.closeCalls = cc + 1
      cases env.gcpCloseErr i <;> rfl
  | file fn ms mb ma c =>
    show ((if lj then _ else _ : ProvState × Option GoErr)).1.closeCalls = cc + 1
    cases lj <;> rfl

lemma closeProvidersFrom_mem (env : Env) :
    ∀ (ps : List ProvState) (i : Nat) (s : ProvState),
      s ∈ (closeProvidersFrom env i ps).1 →
      ∃ s₀ ∈ ps, s.closeCalls = s₀.closeCalls + 1 := by
  intro ps
  induction ps with
  | nil => intro i s h; simp [closeProvidersFrom] at h
  | cons a rest ih =>
    intro i s h
    rw [show (closeProvidersFrom env i (a :: rest)).1 =
        (provClose env i a).1 :: (closeProvidersFrom env (i + 1) rest).1 from rfl] at h
    rcases List.mem_cons.mp h with h | h
    · exact ⟨a, List.mem_cons_self a rest, by rw [h, provClose_closeCalls]⟩
    · obtain ⟨s₀, hs₀, hc⟩ := ih (i + 1) s h
      exact ⟨s₀, List.mem_cons_of_mem a hs₀, hc⟩

lemma newLoggerLoop_error_spec (env : Env) (lvl : ZapLevel) :
    ∀ (pending : List ProvState) (i : Nat) (done : List ProvState) (cores : List Core)
      (ps : List ProvState) (e : GoErr),
      (∀ s ∈ done, s.closeCalls = 0) → (∀ s ∈ pending, s.closeCalls = 0) →
      newLoggerLoop env lvl i done cores pending = (ps, Except.error e) →
      (∃ cause, e = GoErr.wrap "failed to initialise provider: " cause) ∧
      ∀ s ∈ ps, s.closeCalls = 1 := by
  intro pending
  induction pending with
  | nil =>
    intro i done cores ps e _ _ hrun
    simp [newLoggerLoop] at hrun
  | cons a rest ih =>
    intro i done cores ps e hdone hpend hrun
    have ha : a.closeCalls = 0 := hpend a (List.mem_cons_self a rest)
    have hrest : ∀ s ∈ rest, s.closeCalls = 0 :=
      fun s hs => hpend s (List.mem_cons_of_mem a hs)
    rw [newLoggerLoop] at hrun
    cases hr : (newCore env i lvl a).2 with
    | ok c =>
      rw [hr] at hrun
      exact ih (i + 1) ((newCore env i lvl a).1 :: done) (c :: cores) ps e
        (by
          intro s hs
          rcases List.mem_cons.mp hs with h | h
          · rw [h, newCore_closeCalls]; exact ha
          · exact hdone s h)
        hrest hrun
    | error e0 =>
      rw [hr] at hrun
      rw [Prod.mk.injEq] at hrun
      obtain ⟨hps, he⟩ := hrun
      refine ⟨⟨e0, (Except.error.injEq _ _).mp he.symm⟩, ?_⟩
      intro s hs
      rw [← hps] at hs
      obtain ⟨s₀, hs₀, hc⟩ := closeProvidersFrom_mem env _ 0 s hs
      have hz : s₀.closeCalls = 0 := by
        rcases List.mem_append.mp hs₀ with h | h
        · exact hdone s₀ (List.mem_reverse.mp h)
        · rcases List.mem_cons.mp h with h | h
          · rw [h, newCore_closeCalls]; exact ha
          · exact hrest s₀ h
      rw [hc, hz]

lemma newCore_ok_level (env : Env) (i : Nat) (lvl : ZapLevel) (s : ProvState)
    (c : Core) (h : (newCore env i lvl s).2 = Except.ok c) : c.level = lvl := by
  rcases s with ⟨cfg, g, lj, cc⟩
  cases cfg with
  | stdOut et =>
    revert h
    show ((match buildEncoder et with
      | (_, some e) => (_, Except.error e)
      | (enc, none) => _ : ProvState × Except GoErr Core)).2 = Except.ok c → c.level = lvl
    rcases buildEncoder et with ⟨enc, _ | e⟩
    · intro h
      rw [(Except.ok.injEq _ _).mp h.symm]
      rfl
    · intro h; cases h
  | writer id et =>
    revert h
    show ((match buildEncoder et with
      | (_, some e) => (_, Except.error e)
      | (enc, none) => _ : ProvState × Except GoErr Core)).2 = Except.ok c → c.level = lvl
    rcases buildEncoder et with ⟨enc, _ | e⟩
    · intro h
      rw [(Except.ok.injEq _ _).mp h.symm]
      rfl
    · intro h; cases h
  | gcp p l =>
    revert h
    show ((match env.gcpNewClientErr i with
      | some e => (_, Except.error _)
      | none => _ : ProvState × Except GoErr Core)).2 = Except.ok c → c.level = lvl
    cases env.gcpNewClientErr i
    · intro h
      rw [(Except.ok.injEq _ _).mp h.symm]
      rfl
    · intro h; cases h
  | file fn ms mb ma cp =>
    revert h
    show ((if ms < 0 ∨ mb < 0 ∨ ma < 0 then _ else _ :
      ProvState × Except GoErr Core)).2 = Except.ok c → c.level = lvl
    by_cases hneg : ms < 0 ∨ mb < 0 ∨ ma < 0
    · rw [if_pos hneg]; intro h; cases h
    · rw [if_neg hneg]
      intro h
      rw [(Except.ok.injEq _ _).mp h.symm]
      rfl

lemma newLoggerLoop_ok_spec (env : Env) (lvl : ZapLevel) :
    ∀ (pending : List ProvState) (i : Nat) (done : List ProvState) (cores : List Core)
      (ps : List ProvState) (cs : List Core),
      newLoggerLoop env lvl i done cores pending = (ps, Except.ok cs) →
      cs.length = cores.length + pending.length ∧
      ∀ c ∈ cs, c ∈ cores ∨ c.level = lvl := by
  intro pending
  induction pending with
  | nil =>
    intro i done cores ps cs hrun
    rw [newLoggerLoop, Prod.mk.injEq] at hrun
    obtain ⟨-, hcs⟩ := hrun
    rw [← (Except.ok.injEq _ _).mp hcs]
    refine ⟨by simp, ?_⟩
    intro c hc
    exact Or.inl (List.mem_reverse.mp hc)
  | cons a rest ih =>
    intro i done cores ps cs hrun
    rw [newLoggerLoop] at hrun
    cases hr : (newCore env i lvl a).2 with
    | ok c =>
      rw [hr] at hrun
      obtain ⟨hlen, hmem⟩ := ih (i + 1) ((newCore env i lvl a).1 :: done) (c :: cores) ps cs hrun
      refine ⟨by simp only [List.length_cons] at hlen ⊢; omega, ?_⟩
      intro x hx
      rcases hmem x hx with h | h
      · rcases List.mem_cons.mp h with h | h
        · exact Or.inr (by rw [h]; exact newCore_ok_level env i lvl a c hr)
        · exact Or.inl h
      · exact Or.inr h
    | error e0 =>
      rw [hr] at hrun
      rw [Prod.mk.injEq] at hrun
      cases hrun.2

lemma NewLogger_ok_cores (env : Env) (opts : List LoggerOption) (lg : Logger)
    (hok : (NewLogger env opts).2 = Except.ok lg) :
    lg.cores.length = (buildConfig opts).providers.length ∧
    ∀ c ∈ lg.cores, c.level = toZapLevel (buildConfig opts).level := by
  unfold NewLogger NewLoggerFromCfg at hok
  by_cases hE : (buildConfig opts).providers.isEmpty
  · rw [if_pos hE] at hok; cases hok
  · rw [if_neg hE] at hok
    rcases hloop : newLoggerLoop env (toZapLevel (buildConfig opts).level) 0 [] []
        ((buildConfig opts).providers.map ProvState.init) with ⟨ps, r⟩
    rw [hloop] at hok
    cases r with
    | error e => cases hok
    | ok cs =>
      obtain ⟨hlen, hmem⟩ := newLoggerLoop_ok_spec env (toZapLevel (buildConfig opts).level)
        _ 0 [] [] ps cs hloop
      have hlg : lg = { cores := cs } := ((Except.ok.injEq _ _).mp hok).symm
      subst hlg
      constructor
      · simpa using hlen
      · intro c hc
        rcases hmem c hc with h | h
        · cases h
        · exact h

lemma ceWrite_fst (writeErr : Nat → Option GoErr) (ent : Entry) :
    ∀ l : List (Nat × Core), (ceWrite writeErr ent l).1 = l.map (fun p => (p.1, ent)) := by
  intro l
  induction l with
  | nil => rfl
  | cons a rest ih =>
    rcases a with ⟨i, c⟩
    show (i, ent) :: (ceWrite writeErr ent rest).1 = _
    rw [ih]
    rfl

lemma checkFrom_fst_lt (lvl : ZapLevel) :
    ∀ (cores : List Core) (j x : Nat), x < j →
      ((checkFrom j lvl cores).map Prod.fst).count x = 0 := by
  intro cores
  induction cores with
  | nil => intro j x _; rfl
  | cons c rest ih =>
    intro j x hx
    rw [checkFrom]
    by_cases hc : c.enabled lvl
    · rw [if_pos hc]
      rw [List.map_cons, List.count_cons]
      simp only [beq_iff_eq]
      rw [if_neg (by omega : ¬ j = x), add_zero]
      exact ih (j + 1) x (Nat.lt_succ_of_lt hx)
    · rw [if_neg hc]
      exact ih (j + 1) x (Nat.lt_succ_of_lt hx)

lemma checkFrom_count (lvl : ZapLevel) :
    ∀ (cores : List Core) (j d : Nat) (hd : d < cores.length),
      ((checkFrom j lvl cores).map Prod.fst).count (j + d) =
        if (cores.get ⟨d, hd⟩).enabled lvl then 1 else 0 := by
  intro cores
  induction cores with
  | nil => intro j d hd; cases hd
  | cons c rest ih =>
    intro j d hd
    rw [checkFrom]
    cases d with
    | zero =>
      simp only [List.get]
      by_cases hc : c.enabled lvl
      · rw [if_pos hc, if_pos hc]
        rw [List.map_cons, List.count_cons]
        rw [Nat.add_zero]
        rw [checkFrom_fst_lt lvl rest (j + 1) j (Nat.lt_succ_self j)]
        simp
      · rw [if_neg hc, if_neg hc]
        rw [Nat.add_zero]
        exact checkFrom_fst_lt lvl rest (j + 1) j (Nat.lt_succ_self j)
    | succ k =>
      have hk : k < rest.length := Nat.lt_of_succ_lt_succ hd
      have hget : (c :: rest).get ⟨k + 1, hd⟩ = rest.get ⟨k, hk⟩ := rfl
      rw [hget]
      have harith : j + (k + 1) = (j + 1) + k := by omega
      by_cases hc : c.enabled lvl
      · rw [if_pos hc]
        rw [List.map_cons, List.count_cons]
        simp only [beq_iff_eq]
        rw [if_neg (by omega : ¬ j = j + (k + 1)), add_zero, harith]
        exact ih (j + 1) k hk
      · rw [if_neg hc]
        rw [harith]
        exact ih (j + 1) k hk

lemma deliveredCount_eq (lg : Logger) (writeErr : Nat → Option GoErr) (ent : Entry)
    (i : Nat) (hi : i < lg.cores.length) :
    ((emitRecord lg writeErr ent).1.map Prod.fst).count i =
      if (lg.cores.get ⟨i, hi⟩).enabled ent.level then 1 else 0 := by
  unfold emitRecord
  rw [ceWrite_fst]
  rw [List.map_map]
  have hfst : (Prod.fst ∘ fun p : Nat × Core => (p.1, ent)) = Prod.fst := by
    funext p; rfl
  rw [hfst]
  have := checkFrom_count ent.level lg.cores 0 i hi
  rw [Nat.zero_add] at this
  exact this

lemma toZapLevel_le_iff (T L : Level) (hT0 : 0 ≤ T) (hT4 : T ≤ 4)
    (hL0 : 0 ≤ L) (hL4 : L ≤ 4) :
    ((toZapLevel T).toInt ≤ (toZapLevel L).toInt) ↔ T ≤ L := by
  interval_cases T <;> interval_cases L <;> decide

lemma emitAtGoLevel_eq (lg : Logger) (writeErr : Nat → Option GoErr) (L : Level)
    (msg : String) (hL0 : 0 ≤ L) (hL4 : L ≤ 4) :
    emitAtGoLevel lg writeErr L msg = emitRecord lg writeErr ⟨toZapLevel L, msg⟩ := by
  interval_cases L <;> rfl

/-! Concrete objects used by witnesses and counterexamples. -/

/-- The logger NewLogger builds from one writer provider at Info level. -/
def writerLogger : Logger :=
  { cores := [Core.stream ⟨Encoder.json, Sink.writerSink 0, ZapLevel.info⟩] }

/-- The logger NewLogger builds from one stdout provider at Info level. -/
def stdOutLogger : Logger :=
  { cores := [Core.stream ⟨Encoder.json, Sink.stdout, ZapLevel.info⟩] }

/-- The sync error of flushing a non-flushable interactive stream: the path
error ENOTTY on /dev/stdout used by the repository test suite. -/
def benignSyncErr : GoErr := GoErr.pathErr "sync" "/dev/stdout" Errno.ENOTTY

/-- Environment in which syncing the process stdout fails with the benign
ENOTTY path error and everything else succeeds. -/
def envBenignSync : Env :=
  { env0 with syncErr := fun s => if s = Sink.stdout then some benignSyncErr else none }

/-! Claim theorems. -/

/-- C1 (code bug): building a Logger with one Destination and calling Close
twice invokes the provider close() twice — two physical releases, not the
single release the specification and the repository test
TestLogger_CloseInvokesProvidersOnce demand (the second Close does return
no error). -/
theorem close_twice_releases_twice :
    (NewLogger env0 [LoggerOption.withWriterProvider 0 JSONEncoder]).2 =
      Except.ok writerLogger ∧
    (Logger.Close env0 writerLogger
      (NewLogger env0 [LoggerOption.withWriterProvider 0 JSONEncoder]).1).2 = none ∧
    (Logger.Close env0 writerLogger
      (Logger.Close env0 writerLogger
        (NewLogger env0 [LoggerOption.withWriterProvider 0 JSONEncoder]).1).1).2 = none ∧
    (Logger.Close env0 writerLogger
      (Logger.Close env0 writerLogger
        (NewLogger env0 [LoggerOption.withWriterProvider 0 JSONEncoder]).1).1).1.map
      ProvState.closeCalls = [2] :=
  ⟨rfl, rfl, rfl, rfl⟩

/-- C3 (code bug): the sync error of a non-flushable interactive stream is
of the known-benign class (the modelled ignoreSyncError filters it), yet
Close propagates it wrapped as a zap sync error instead of returning no
error. -/
theorem close_reports_benign_sync_error :
    (NewLogger envBenignSync [LoggerOption.withStdOutProvider JSONEncoder]).2 =
      Except.ok stdOutLogger ∧
    ignoreSyncError benignSyncErr = none ∧
    (Logger.Close envBenignSync stdOutLogger
      (NewLogger envBenignSync [LoggerOption.withStdOutProvider JSONEncoder]).1).2 =
      some (GoErr.wrap "zap sync error: " benignSyncErr) :=
  ⟨rfl, rfl, rfl⟩

/-- C6: a configuration with zero Destinations makes NewLogger fail with
the no-providers configuration error; no Logger is returned. -/
theorem zero_providers_config_error (env : Env) (opts : List LoggerOption)
    (h : (buildConfig opts).providers = []) :
    (NewLogger env opts).2 = Except.error (GoErr.new "no providers specified") := by
  unfold NewLogger NewLoggerFromCfg
  rw [h]
  rfl

/-- Witness for C6 at the empty option list. -/
theorem zero_providers_config_error_witness :
    (NewLogger env0 []).2 = Except.error (GoErr.new "no providers specified") :=
  zero_providers_config_error env0 [] rfl

/-- C8: a record delivered to the cloud destination at each of the five
golog levels is written with the claimed severity: Debug to DEBUG, Info to
INFO, Warn to WARNING, Error to ERROR, Fatal to EMERGENCY. -/
theorem gcp_severity_mapping (msg : String) :
    (gcpWrite ⟨toZapLevel DebugLevel, msg⟩).severity = Severity.debug ∧
    (gcpWrite ⟨toZapLevel InfoLevel, msg⟩).severity = Severity.info ∧
    (gcpWrite ⟨toZapLevel WarnLevel, msg⟩).severity = Severity.warning ∧
    (gcpWrite ⟨toZapLevel ErrorLevel, msg⟩).severity = Severity.error ∧
    (gcpWrite ⟨toZapLevel FatalLevel, msg⟩).severity = Severity.emergency :=
  ⟨rfl, rfl, rfl, rfl, rfl⟩

/-- C9: for every encoder kind other than json and console, buildEncoder
returns the usable JSON encoder together with an error naming the
unsupported encoder type. -/
theorem unsupported_encoder_fallback (t : EncoderType)
    (h1 : t ≠ JSONEncoder) (h2 : t ≠ ConsoleEncoder) :
    (buildEncoder t).1 = Encoder.json ∧
    ∃ e, (buildEncoder t).2 = some e ∧ strContains e.text "unsupported encoder type" := by
  unfold buildEncoder
  rw [if_neg h2, if_neg h1]
  refine ⟨rfl, GoErr.new ("unsupported encoder type " ++ goQuote t ++ ", falling back to JSON"),
    rfl, ?_⟩
  show strContains ("unsupported encoder type " ++ (goQuote t ++ ", falling back to JSON"))
    "unsupported encoder type"
  exact strContains_of_left _ _ _ (by decide)

/-- Witness for C9 at the encoder kind xml. -/
theorem unsupported_encoder_fallback_witness :
    (buildEncoder "xml").1 = Encoder.json ∧
    ∃ e, (buildEncoder "xml").2 = some e ∧ strContains e.text "unsupported encoder type" :=
  unsupported_encoder_fallback "xml" (by decide) (by decide)

/-- C10: toZapLevel maps every Level value outside the five named constants
to the Info zap level, and the result of NewLogger on such a level is the
same as on InfoLevel, so construction never fails because of the level
value. -/
theorem toZapLevel_out_of_range_info (l : Level)
    (h0 : l ≠ DebugLevel) (h1 : l ≠ InfoLevel) (h2 : l ≠ WarnLevel)
    (h3 : l ≠ ErrorLevel) (h4 : l ≠ FatalLevel) :
    toZapLevel l = ZapLevel.info ∧
    ∀ (env : Env) (provs : List ProviderCfg),
      NewLoggerFromCfg env { providers := provs, level := l } =
        NewLoggerFromCfg env { providers := provs, level := InfoLevel } := by
  have hz : toZapLevel l = ZapLevel.info := by
    unfold toZapLevel
    rw [if_neg h0, if_neg h1, if_neg h2, if_neg h3, if_neg h4]
  refine ⟨hz, ?_⟩
  intro env provs
  unfold NewLoggerFromCfg
  have hz2 : toZapLevel InfoLevel = ZapLevel.info := rfl
  rw [show ({ providers := provs, level := l } : LoggerConfig).level = l from rfl,
    show ({ providers := provs, level := InfoLevel } : LoggerConfig).level = InfoLevel from rfl,
    hz, hz2]

/-- Witness for C10 at the out-of-range level 7. -/
theorem toZapLevel_out_of_range_info_witness :
    toZapLevel 7 = ZapLevel.info ∧
    NewLoggerFromCfg env0 { providers := [ProviderCfg.stdOut JSONEncoder], level := 7 } =
      NewLoggerFromCfg env0 { providers := [ProviderCfg.stdOut JSONEncoder], level := InfoLevel } := by
  have h := toZapLevel_out_of_range_info 7 (by decide) (by decide) (by decide) (by decide) (by decide)
  exact ⟨h.1, h.2 env0 [ProviderCfg.stdOut JSONEncoder]⟩

lemma newCore_gcp_error (env : Env) (i : Nat) (lvl : ZapLevel) (s : ProvState)
    (pid ln : String) (e' : GoErr) (hcfg : s.cfg = ProviderCfg.gcp pid ln)
    (h : (newCore env i lvl s).2 = Except.error e') :
    ∃ e0, e' = GoErr.wrap "gcpProvider: failed to create client: " e0 := by
  rcases s with ⟨cfg, g, lj, cc⟩
  cases hcfg
  revert h
  show ((match env.gcpNewClientErr i with
    | some e => (_, Except.error (GoErr.wrap "gcpProvider: failed to create client: " e))
    | none => _ : ProvState × Except GoErr Core)).2 = Except.error e' →
    ∃ e0, e' = GoErr.wrap "gcpProvider: failed to create client: " e0
  cases env.gcpNewClientErr i with
  | none => intro h; cases h
  | some e0 =>
    intro h
    exact ⟨e0, ((Except.error.injEq _ _).mp h).symm⟩

lemma newCore_file_error (env : Env) (i : Nat) (lvl : ZapLevel) (s : ProvState)
    (fn : String) (ms mb ma : Int) (cp : Bool) (e' : GoErr)
    (hcfg : s.cfg = ProviderCfg.file fn ms mb ma cp)
    (h : (newCore env i lvl s).2 = Except.error e') :
    e' = GoErr.new "fileProvider: rotation parameters must be non‑negative" := by
  rcases s with ⟨cfg, g, lj, cc⟩
  cases hcfg
  revert h
  show ((if ms < 0 ∨ mb < 0 ∨ ma < 0 then _ else _ :
    ProvState × Except GoErr Core)).2 = Except.error e' →
    e' = GoErr.new "fileProvider: rotation parameters must be non‑negative"
  by_cases hneg : ms < 0 ∨ mb < 0 ∨ ma < 0
  · rw [if_pos hneg]
    intro h
    exact ((Except.error.injEq _ _).mp h).symm
  · rw [if_neg hneg]
    intro h
    cases h

set_option maxRecDepth 4000 in
/-- C2 counterexample: with the single option registering a stdout
destination with the unrecognized encoder kind xml, NewLogger fails (so
some provider initialization failed), but the returned error text names no
destination kind: it mentions neither stdOut nor stdout nor standard
output nor console. -/
theorem newLogger_error_omits_kind_for_stdout :
    ∃ e, (NewLogger env0 [LoggerOption.withStdOutProvider "xml"]).2 = Except.error e ∧
      ¬ strContains e.text "stdOut" ∧
      ¬ strContains e.text "stdout" ∧
      ¬ strContains e.text "standard output" ∧
      ¬ strContains e.text "console" := by
  refine ⟨GoErr.wrap "failed to initialise provider: "
    (GoErr.new "unsupported encoder type \"xml\", falling back to JSON"),
    rfl, ?_, ?_, ?_, ?_⟩ <;> decide

/-- C2 (amended): when NewLogger fails on a nonempty provider list (that
is, some provider newCore failed), the returned error wraps the underlying
cause, every Destination — in particular each one initialized before the
failure — has close() invoked exactly once before NewLogger returns, and
for the gcp and file destination kinds the cause names the failing
provider kind. -/
theorem newLogger_partial_failure_atomic (env : Env) (opts : List LoggerOption)
    (e : GoErr) (hne : (buildConfig opts).providers ≠ [])
    (h : (NewLogger env opts).2 = Except.error e) :
    (∃ cause, e = GoErr.wrap "failed to initialise provider: " cause) ∧
    (∀ s ∈ (NewLogger env opts).1, s.closeCalls = 1) ∧
    (∀ (i : Nat) (lvl : ZapLevel) (s : ProvState) (e' : GoErr),
      (newCore env i lvl s).2 = Except.error e' →
      (∀ pid ln, s.cfg = ProviderCfg.gcp pid ln → strContains e'.text "gcpProvider") ∧
      (∀ fn ms mb ma c, s.cfg = ProviderCfg.file fn ms mb ma c →
        strContains e'.text "fileProvider")) := by
  have hkinds : ∀ (i : Nat) (lvl : ZapLevel) (s : ProvState) (e' : GoErr),
      (newCore env i lvl s).2 = Except.error e' →
      (∀ pid ln, s.cfg = ProviderCfg.gcp pid ln → strContains e'.text "gcpProvider") ∧
      (∀ fn ms mb ma c, s.cfg = ProviderCfg.file fn ms mb ma c →
        strContains e'.text "fileProvider") := by
    intro i lvl s e' he'
    constructor
    · intro pid ln hcfg
      obtain ⟨e0, rfl⟩ := newCore_gcp_error env i lvl s pid ln e' hcfg he'
      show strContains ("gcpProvider: failed to create client: " ++ e0.text) "gcpProvider"
      exact strContains_of_left _ _ _ (by decide)
    · intro fn ms mb ma c hcfg
      rw [newCore_file_error env i lvl s fn ms mb ma c e' hcfg he']
      decide
  have hE : ¬ (buildConfig opts).providers.isEmpty := by
    simpa [List.isEmpty_iff] using hne
  unfold NewLogger NewLoggerFromCfg at h ⊢
  rw [if_neg hE] at h ⊢
  rcases hloop : newLoggerLoop env (toZapLevel (buildConfig opts).level) 0 [] []
      ((buildConfig opts).providers.map ProvState.init) with ⟨ps, r⟩
  rw [hloop] at h
  cases r with
  | ok cs => cases h
  | error e1 =>
    have he1 : e1 = e := (Except.error.injEq _ _).mp h
    subst he1
    obtain ⟨hwrap, hclose⟩ := newLoggerLoop_error_spec env
      (toZapLevel (buildConfig opts).level)
      ((buildConfig opts).providers.map ProvState.init) 0 [] [] ps e1
      (by intro s hs; cases hs)
      (by
        intro s hs
        obtain ⟨c, -, rfl⟩ := List.mem_map.mp hs
        rfl)
      hloop
    exact ⟨hwrap, hclose, hkinds⟩

/-- Witness for C2 at a failing gcp provider. -/
theorem newLogger_partial_failure_atomic_witness :
    (∃ cause,
      GoErr.wrap "failed to initialise provider: "
        (GoErr.wrap "gcpProvider: failed to create client: " (GoErr.errno Errno.ioErr)) =
      GoErr.wrap "failed to initialise provider: " cause) ∧
    (∀ s ∈ (NewLogger
        { env0 with gcpNewClientErr := fun _ => some (GoErr.errno Errno.ioErr) }
        [LoggerOption.withGCPProvider "p" "lg"]).1, s.closeCalls = 1) := by
  have h := newLogger_partial_failure_atomic
    { env0 with gcpNewClientErr := fun _ => some (GoErr.errno Errno.ioErr) }
    [LoggerOption.withGCPProvider "p" "lg"]
    (GoErr.wrap "failed to initialise provider: "
      (GoErr.wrap "gcpProvider: failed to create client: " (GoErr.errno Errno.ioErr)))
    (by decide) rfl
  exact ⟨h.1, h.2.1⟩

/-- Shared helper for the threshold and fan-out claims: for a logger built
by NewLogger with threshold T (T and L among the five named levels), one
record emitted through a leveled method at level L reaches the destination
at position i exactly (if T is at most L then 1 else 0) times, for every
assignment of per-destination write failures. -/
lemma count_emitAtGoLevel (env : Env) (opts : List LoggerOption) (lg : Logger)
    (T L : Level) (writeErr : Nat → Option GoErr) (msg : String) (i : Nat)
    (hT0 : 0 ≤ T) (hT4 : T ≤ 4) (hL0 : 0 ≤ L) (hL4 : L ≤ 4)
    (hlevel : (buildConfig opts).level = T)
    (hok : (NewLogger env opts).2 = Except.ok lg)
    (hi : i < lg.cores.length) :
    ((emitAtGoLevel lg writeErr L msg).1.map Prod.fst).count i =
      if T ≤ L then 1 else 0 := by
  rw [emitAtGoLevel_eq lg writeErr L msg hL0 hL4]
  rw [deliveredCount_eq lg writeErr ⟨toZapLevel L, msg⟩ i hi]
  obtain ⟨-, hcores⟩ := NewLogger_ok_cores env opts lg hok
  have hlv : lg.cores[i].level = toZapLevel T := by
    rw [hcores lg.cores[i] (lg.cores.getElem_mem hi), hlevel]
  by_cases hTL : T ≤ L
  · rw [if_pos hTL]
    have h1 : (toZapLevel T).toInt ≤ (toZapLevel L).toInt :=
      (toZapLevel_le_iff T L hT0 hT4 hL0 hL4).mpr hTL
    simp [Core.enabled, hlv, h1]
  · rw [if_neg hTL]
    have h1 : (toZapLevel L).toInt < (toZapLevel T).toInt :=
      lt_of_not_le fun hle => hTL ((toZapLevel_le_iff T L hT0 hT4 hL0 hL4).mp hle)
    simp [Core.enabled, hlv, h1]

/-- C4: for a Logger built with threshold T, a record emitted through one
of the five leveled methods at level L is delivered to each destination
exactly when T is at most L: one copy each when accepted, zero when
filtered. -/
theorem threshold_filtering_iff (env : Env) (opts : List LoggerOption) (lg : Logger)
    (T L : Level) (writeErr : Nat → Option GoErr) (msg : String) (i : Nat)
    (hT0 : 0 ≤ T) (hT4 : T ≤ 4) (hL0 : 0 ≤ L) (hL4 : L ≤ 4)
    (hlevel : (buildConfig opts).level = T)
    (hok : (NewLogger env opts).2 = Except.ok lg)
    (hi : i < lg.cores.length) :
    ((emitAtGoLevel lg writeErr L msg).1.map Prod.fst).count i =
      if T ≤ L then 1 else 0 :=
  count_emitAtGoLevel env opts lg T L writeErr msg i hT0 hT4 hL0 hL4 hlevel hok hi

/-- The logger NewLogger builds from one writer provider at Warn level. -/
def warnWriterLogger : Logger :=
  { cores := [Core.stream ⟨Encoder.json, Sink.writerSink 0, ZapLevel.warn⟩] }

/-- Witness for C4: with threshold Warn, an Info record produces zero
entries in the destination and an Error record exactly one. -/
theorem threshold_filtering_iff_witness :
    ((emitAtGoLevel warnWriterLogger (fun _ => none) InfoLevel "m").1.map Prod.fst).count 0
      = 0 ∧
    ((emitAtGoLevel warnWriterLogger (fun _ => none) ErrorLevel "m").1.map Prod.fst).count 0
      = 1 := by
  constructor
  · have h := threshold_filtering_iff env0
      [LoggerOption.withWriterProvider 0 JSONEncoder, LoggerOption.withLevel WarnLevel]
      warnWriterLogger WarnLevel InfoLevel (fun _ => none) "m" 0
      (by decide) (by decide) (by decide) (by decide) rfl rfl (by decide)
    simpa using h
  · have h := threshold_filtering_iff env0
      [LoggerOption.withWriterProvider 0 JSONEncoder, LoggerOption.withLevel WarnLevel]
      warnWriterLogger WarnLevel ErrorLevel (fun _ => none) "m" 0
      (by decide) (by decide) (by decide) (by decide) rfl rfl (by decide)
    simpa using h

/-- C5: a Logger built by NewLogger has one destination per configured
provider; a record emitted at an accepted level is delivered to the
destination at each position exactly once, and the deliveries are the same
under every assignment of per-destination write failures, so one
destination failing to write never stops delivery to the others. -/
theorem fanout_exactly_once (env : Env) (opts : List LoggerOption) (lg : Logger)
    (T L : Level) (writeErr writeErr' : Nat → Option GoErr) (msg : String) (i : Nat)
    (hT0 : 0 ≤ T) (hT4 : T ≤ 4) (hL0 : 0 ≤ L) (hL4 : L ≤ 4) (hTL : T ≤ L)
    (hlevel : (buildConfig opts).level = T)
    (hok : (NewLogger env opts).2 = Except.ok lg)
    (hi : i < lg.cores.length) :
    lg.cores.length = (buildConfig opts).providers.length ∧
    ((emitAtGoLevel lg writeErr L msg).1.map Prod.fst).count i = 1 ∧
    (emitAtGoLevel lg writeErr L msg).1 = (emitAtGoLevel lg writeErr' L msg).1 := by
  obtain ⟨hlen, -⟩ := NewLogger_ok_cores env opts lg hok
  refine ⟨hlen, ?_, ?_⟩
  · have h := count_emitAtGoLevel env opts lg T L writeErr msg i
      hT0 hT4 hL0 hL4 hlevel hok hi
    rw [h, if_pos hTL]
  · rw [emitAtGoLevel_eq lg writeErr L msg hL0 hL4,
      emitAtGoLevel_eq lg writeErr' L msg hL0 hL4]
    unfold emitRecord
    rw [ceWrite_fst, ceWrite_fst]

/-- The logger NewLogger builds from two writer providers at Info level. -/
def twoWriterLogger : Logger :=
  { cores := [Core.stream ⟨Encoder.json, Sink.writerSink 0, ZapLevel.info⟩,
              Core.stream ⟨Encoder.json, Sink.writerSink 1, ZapLevel.info⟩] }

/-- Witness for C5: two destinations, the first failing every write; an
Error record still reaches both exactly once. -/
theorem fanout_exactly_once_witness :
    twoWriterLogger.cores.length = 2 ∧
    ((emitAtGoLevel twoWriterLogger
        (fun j => if j = 0 then some (GoErr.errno Errno.ioErr) else none)
        ErrorLevel "m").1.map Prod.fst).count 0 = 1 ∧
    ((emitAtGoLevel twoWriterLogger
        (fun j => if j = 0 then some (GoErr.errno Errno.ioErr) else none)
        ErrorLevel "m").1.map Prod.fst).count 1 = 1 := by
  have h0 := fanout_exactly_once env0
    [LoggerOption.withWriterProvider 0 JSONEncoder, LoggerOption.withWriterProvider 1 JSONEncoder]
    twoWriterLogger InfoLevel ErrorLevel
    (fun j => if j = 0 then some (GoErr.errno Errno.ioErr) else none) (fun _ => none) "m" 0
    (by decide) (by decide) (by decide) (by decide) (by decide) rfl rfl (by decide)
  have h1 := fanout_exactly_once env0
    [LoggerOption.withWriterProvider 0 JSONEncoder, LoggerOption.withWriterProvider 1 JSONEncoder]
    twoWriterLogger InfoLevel ErrorLevel
    (fun j => if j = 0 then some (GoErr.errno Errno.ioErr) else none) (fun _ => none) "m" 1
    (by decide) (by decide) (by decide) (by decide) (by decide) rfl rfl (by decide)
  exact ⟨rfl, h0.2.1, h1.2.1⟩

/-- Outcome of NewLoggerFromCfg on a single provider whose newCore
succeeds. -/
lemma NewLoggerFromCfg_single_ok (env : Env) (p : ProviderCfg) (l : Level)
    (s1 : ProvState) (c : Core)
    (hr : newCore env 0 (toZapLevel l) (ProvState.init p) = (s1, Except.ok c)) :
    NewLoggerFromCfg env { providers := [p], level := l } =
      ([s1], Except.ok { cores := [c] }) := by
  unfold NewLoggerFromCfg
  rw [if_neg (by simp :
    ¬ (({ providers := [p], level := l } : LoggerConfig).providers.isEmpty = true))]
  show (match newLoggerLoop env (toZapLevel l) 0 [] [] [ProvState.init p] with
    | (ps, Except.ok cores) => (ps, Except.ok { cores := cores })
    | (ps, Except.error e) => (ps, Except.error e) : List ProvState × Except GoErr Logger) = _
  rw [newLoggerLoop, hr]
  rfl

/-- Outcome of NewLoggerFromCfg on a single provider whose newCore fails. -/
lemma NewLoggerFromCfg_single_error (env : Env) (p : ProviderCfg) (l : Level)
    (s1 : ProvState) (e : GoErr)
    (hr : newCore env 0 (toZapLevel l) (ProvState.init p) = (s1, Except.error e)) :
    NewLoggerFromCfg env { providers := [p], level := l } =
      ((closeProviders env [s1]).1,
        Except.error (GoErr.wrap "failed to initialise provider: " e)) := by
  unfold NewLoggerFromCfg
  rw [if_neg (by simp :
    ¬ (({ providers := [p], level := l } : LoggerConfig).providers.isEmpty = true))]
  show (match newLoggerLoop env (toZapLevel l) 0 [] [] [ProvState.init p] with
    | (ps, Except.ok cores) => (ps, Except.ok { cores := cores })
    | (ps, Except.error e) => (ps, Except.error e) : List ProvState × Except GoErr Logger) = _
  rw [newLoggerLoop, hr]
  rfl

/-- Outcome of NewLogger on a single file provider with an out-of-range
rotation parameter: the provider state is returned with no lumberjack
logger created, and the validation error is wrapped. -/
lemma newLogger_file_negative (env : Env) (fn : String) (ms mb ma : Int) (cmp : Bool)
    (hneg : ms < 0 ∨ mb < 0 ∨ ma < 0) :
    NewLogger env [LoggerOption.withFileProvider fn ms mb ma cmp] =
      ([{ cfg := ProviderCfg.file fn ms mb ma cmp, gcpClientSet := false,
          ljSet := false, closeCalls := 1 }],
        Except.error (GoErr.wrap "failed to initialise provider: "
          (GoErr.new "fileProvider: rotation parameters must be non‑negative"))) := by
  have hnc : newCore env 0 ZapLevel.info
      (ProvState.init (ProviderCfg.file fn ms mb ma cmp)) =
      (ProvState.init (ProviderCfg.file fn ms mb ma cmp),
        Except.error (GoErr.new "fileProvider: rotation parameters must be non‑negative")) := by
    show (if ms < 0 ∨ mb < 0 ∨ ma < 0 then _ else _ : ProvState × Except GoErr Core) = _
    rw [if_pos hneg]
  have h2 := NewLoggerFromCfg_single_error env (ProviderCfg.file fn ms mb ma cmp) InfoLevel
    (ProvState.init (ProviderCfg.file fn ms mb ma cmp))
    (GoErr.new "fileProvider: rotation parameters must be non‑negative") hnc
  exact h2.trans rfl

/-- Outcome of NewLogger on a single file provider with in-range rotation
parameters: construction proceeds and yields the file-backed logger. -/
lemma newLogger_file_nonneg (env : Env) (fn : String) (ms mb ma : Int) (cmp : Bool)
    (h1 : 0 ≤ ms) (h2 : 0 ≤ mb) (h3 : 0 ≤ ma) :
    NewLogger env [LoggerOption.withFileProvider fn ms mb ma cmp] =
      ([{ cfg := ProviderCfg.file fn ms mb ma cmp, gcpClientSet := false,
          ljSet := true, closeCalls := 0 }],
        Except.ok { cores := [Core.stream ⟨Encoder.json, Sink.fileSink fn, ZapLevel.info⟩] }) := by
  have hnc : newCore env 0 ZapLevel.info
      (ProvState.init (ProviderCfg.file fn ms mb ma cmp)) =
      ({ cfg := ProviderCfg.file fn ms mb ma cmp, gcpClientSet := false,
          ljSet := true, closeCalls := 0 },
        Except.ok (Core.stream ⟨Encoder.json, Sink.fileSink fn, ZapLevel.info⟩)) := by
    show (if ms < 0 ∨ mb < 0 ∨ ma < 0 then _ else _ : ProvState × Except GoErr Core) = _
    rw [if_neg (by omega : ¬ (ms < 0 ∨ mb < 0 ∨ ma < 0))]
    rfl
  have h4 := NewLoggerFromCfg_single_ok env (ProviderCfg.file fn ms mb ma cmp) InfoLevel
    { cfg := ProviderCfg.file fn ms mb ma cmp, gcpClientSet := false,
      ljSet := true, closeCalls := 0 }
    (Core.stream ⟨Encoder.json, Sink.fileSink fn, ZapLevel.info⟩) hnc
  exact h4.trans rfl

set_option maxRecDepth 20000 in
/-- C7 counterexample: at maxSize = -1 the construction error does not
contain the ASCII string non-negative; the source spells the word with the
U+2011 non-breaking hyphen. -/
theorem file_error_lacks_ascii_non_negative :
    ∃ e, (NewLogger env0 [LoggerOption.withFileProvider "/tmp/bad.log" (-1) 0 0 false]).2 =
      Except.error e ∧ ¬ strContains e.text "non-negative" := by
  refine ⟨GoErr.wrap "failed to initialise provider: "
    (GoErr.new "fileProvider: rotation parameters must be non‑negative"), ?_, by decide⟩
  rw [newLogger_file_negative env0 "/tmp/bad.log" (-1) 0 0 false (by decide)]

set_option maxRecDepth 20000 in
/-- C7 (amended): a file Destination with a negative rotation parameter
fails Logger construction with an error mentioning non‑negative (spelled
with the U+2011 non-breaking hyphen, as the source does), and no
lumberjack logger is created, hence no file on disk; with all three
parameters non-negative the validation passes and construction proceeds. -/
theorem file_rotation_validation (env : Env) (fn : String) (ms mb ma : Int) (cmp : Bool)
    (hneg : ms < 0 ∨ mb < 0 ∨ ma < 0) :
    (∃ e, (NewLogger env [LoggerOption.withFileProvider fn ms mb ma cmp]).2 =
        Except.error e ∧ strContains e.text "non‑negative") ∧
    (∀ s ∈ (NewLogger env [LoggerOption.withFileProvider fn ms mb ma cmp]).1,
      s.ljSet = false) ∧
    (∀ ms' mb' ma' : Int, 0 ≤ ms' → 0 ≤ mb' → 0 ≤ ma' →
      (NewLogger env [LoggerOption.withFileProvider fn ms' mb' ma' cmp]).2 =
        Except.ok { cores := [Core.stream ⟨Encoder.json, Sink.fileSink fn, ZapLevel.info⟩] }) := by
  rw [newLogger_file_negative env fn ms mb ma cmp hneg]
  refine ⟨⟨GoErr.wrap "failed to initialise provider: "
    (GoErr.new "fileProvider: rotation parameters must be non‑negative"), rfl, by decide⟩,
    ?_, ?_⟩
  · intro s hs
    rw [List.mem_singleton.mp hs]
  · intro ms' mb' ma' h1 h2 h3
    rw [newLogger_file_nonneg env fn ms' mb' ma' cmp h1 h2 h3]

/-- Witness for C7 at maxSize = -1. -/
theorem file_rotation_validation_witness :
    (∃ e, (NewLogger env0 [LoggerOption.withFileProvider "/tmp/bad.log" (-1) 0 0 false]).2 =
        Except.error e ∧ strContains e.text "non‑negative") ∧
    (∀ s ∈ (NewLogger env0 [LoggerOption.withFileProvider "/tmp/bad.log" (-1) 0 0 false]).1,
      s.ljSet = false) ∧
    (∀ ms' mb' ma' : Int, 0 ≤ ms' → 0 ≤ mb' → 0 ≤ ma' →
      (NewLogger env0 [LoggerOption.withFileProvider "/tmp/bad.log" ms' mb' ma' false]).2 =
        Except.ok { cores :=
          [Core.stream ⟨Encoder.json, Sink.fileSink "/tmp/bad.log", ZapLevel.info⟩] }) :=
  file_rotation_validation env0 "/tmp/bad.log" (-1) 0 0 false (by decide)

end GoLog
